import Mathlib

/-!
Verification of the HRAI data-preprocessing utilities (`src/data/preprocess.py`).

The Python source consists of two functions:

* `load_data(filepath)` — `pd.read_csv(filepath)`;
* `clean_data(df)` — `df.dropna()` (default arguments: drop every row that
  contains at least one missing value; no in-place mutation).

We shallowly embed the data model and the two operations.  A `Table` models a
pandas `DataFrame`: an ordered list of column names together with the rows,
each row carrying its positional index label (pandas `RangeIndex` labels are
produced by `read_csv`; `dropna` keeps the surviving rows' labels).  A cell is
`Option String`: `none` is the missing-value marker (pandas `NaN`), `some s`
a present value.  Column-type inference is abstracted away (cells are kept as
their textual form); none of the verified properties depend on it.

`read_csv` is embedded on the plain fragment of the CSV format — no quoting
and no carriage returns, so lines are delimited by the newline characters and
fields by the commas alone (theorems about parse failure carry this fragment
as an explicit hypothesis, `plainDelimited`): lines split on newline
characters, blank lines skipped (pandas default `skip_blank_lines=True`),
fields split on commas, a field equal to one of pandas' default NA sentinels
(including the empty field) becomes the missing marker, and short rows are
padded with missing values.  Field-count enforcement follows the pandas C
tokenizer: the established width is the wider of the header and the first
data row — a first data row wider than the header is not an error, its extra
leading fields become the row index — and only a later data row wider than
the established width is a parse error (pandas `ParserError`, "Expected N
fields, saw M").  In the implicit-index case the embedding keeps the data
cells (the fields under the named columns) and abstracts the file-derived
index labels to positions, like the column-type abstraction; no verified
property depends on that branch.  The file-system access performed by
`read_csv` becomes an explicit parameter `fs : String → Option String`
mapping a path to the file's contents when the path is readable; an
unreadable path is a `fileAccess` error (pandas `FileNotFoundError` and
kin).
-/

/-- A cell of a table: `none` is the missing-value marker (pandas `NaN`). -/
abbrev Cell := Option String

/-- A pandas `DataFrame`, shallowly: ordered column names, and rows carrying
their index labels.  Each row's cell list is positionally aligned with
`cols`. -/
structure Table where
  cols : List String
  rows : List (Nat × List Cell)
deriving Repr, DecidableEq

/-- A well-formed table: every row has exactly one cell per column. -/
def Table.wf (t : Table) : Prop :=
  ∀ r ∈ t.rows, r.2.length = t.cols.length

/-- A row is kept by `dropna` iff none of its cells is missing. -/
def rowComplete (r : Nat × List Cell) : Bool :=
  r.2.all (fun c => c.isSome)

/-- `clean_data(df)`, i.e. `df.dropna()` with pandas defaults: drop every row
that contains at least one missing cell, keeping the survivors in order and
with their original index labels; columns are untouched. -/
def clean_data (df : Table) : Table :=
  { cols := df.cols, rows := df.rows.filter rowComplete }

/-- The caller-visible effect of one call `clean_data(df)`.  The Python body
rebinds the local name (`df = df.dropna()`); `dropna` with its default
`inplace=False` allocates a fresh frame, so the call returns the cleaned
table and the caller's argument object is left as it was.  The second
component is the caller's table after the call. -/
def clean_data_call (df : Table) : Table × Table :=
  (clean_data df, df)

/-- Split a character list on a separator character.  Splitting the empty
list yields one empty field, matching the usual CSV field semantics. -/
def splitOnChar (c : Char) : List Char → List (List Char)
  | [] => [[]]
  | a :: rest =>
    let r := splitOnChar c rest
    if a = c then [] :: r
    else
      match r with
      | [] => [[a]]
      | h :: t => (a :: h) :: t

/-- The physical lines of a file's contents, blank lines skipped
(pandas default `skip_blank_lines=True`). -/
def splitLines (content : String) : List String :=
  ((splitOnChar '\n' content.data).map String.mk).filter (fun l => l ≠ "")

/-- The comma-separated fields of one line. -/
def splitFields (line : String) : List String :=
  (splitOnChar ',' line.data).map String.mk

/-- pandas' default NA sentinels: a field equal to one of these strings is
read as the missing value.  The empty field is among them. -/
def defaultNaValues : List String :=
  ["", "#N/A", "#N/A N/A", "#NA", "-1.#IND", "-1.#QNAN", "-NaN", "-nan",
   "1.#IND", "1.#QNAN", "<NA>", "N/A", "NA", "NULL", "NaN", "None",
   "n/a", "nan", "null"]

/-- Parse one field into a cell: an NA sentinel becomes the missing marker. -/
def parseCell (s : String) : Cell :=
  if defaultNaValues.contains s then none else some s

/-- Parse one data line into a row of `n` cells: fields become cells, and a
short row is padded with missing values (pandas C-parser behavior). -/
def parseRow (n : Nat) (line : String) : List Cell :=
  let fields := splitFields line
  fields.map parseCell ++ List.replicate (n - fields.length) none

/-- The errors `load_data` can surface: the path cannot be opened for
reading (`FileAccessError`), or the contents are not well-formed delimited
text (`ParseError`). -/
inductive LoadError where
  | fileAccess
  | parse
deriving Repr, DecidableEq

/-- Contents in the plain fragment of the CSV format: no quoting and no
carriage returns, so the commas and newline characters delimit fields and
lines by themselves and the splitting model is exact. -/
def plainDelimited (content : String) : Bool :=
  content.data.all (fun c => c != '"' && c != '\r')

/-- The pandas C tokenizer's field-count error condition: some data row
after the first has more fields than the established width, which is the
wider of the header and the first data row.  A first data row wider than
the header is not an error — `read_csv` turns its extra leading fields
into the row index — and a short row is never an error (it is padded with
missing values). -/
def csvRaggedRow (content : String) : Bool :=
  match splitLines content with
  | [] => false
  | header :: dataLines =>
    match dataLines with
    | [] => false
    | first :: rest =>
      ! rest.all (fun l =>
          (splitFields l).length ≤
            max (splitFields header).length (splitFields first).length)

/-- Parse file contents into a `Table`: the first line names the columns,
the remaining lines become rows labeled `0, 1, 2, …` in file order.  Rows
are padded to the established width (the wider of the header and the first
data row); when the first data row is wider than the header, the extra
leading fields are the implicit row index and only the fields under the
named columns are kept as cells (index labels abstracted to positions).  A
later data row wider than the established width is a parse error, and so
are contents with no lines at all (pandas `EmptyDataError`, "No columns to
parse from file"). -/
def parseCsv (content : String) : Except LoadError Table :=
  match splitLines content with
  | [] => Except.error LoadError.parse
  | header :: dataLines =>
    let cols := splitFields header
    match dataLines with
    | [] => Except.ok { cols := cols, rows := [] }
    | first :: rest =>
      let expected := max cols.length (splitFields first).length
      if rest.all (fun l => (splitFields l).length ≤ expected) then
        Except.ok
          { cols := cols
            rows := ((first :: rest).map
              (fun l => (parseRow expected l).drop (expected - cols.length))).enum }
      else Except.error LoadError.parse

/-- `load_data(filepath)`, i.e. `pd.read_csv(filepath)`, over an explicit
file system `fs` mapping each readable path to its contents. -/
def load_data (fs : String → Option String) (path : String) :
    Except LoadError Table :=
  match fs path with
  | none => Except.error LoadError.fileAccess
  | some content => parseCsv content

/-- The file contents of concrete scenario 1 of the spec. -/
def scenario1Content : String := "a,b\n1,2\n,4\n5,6\n"

/-- A one-file file system holding scenario 1's file. -/
def scenario1Fs : String → Option String := fun p =>
  if p = "hr.csv" then some scenario1Content else none

/-- A CSV whose fields are all non-empty but whose first data row contains
the NA sentinel `NA`. -/
def sentinelContent : String := "a,b\nNA,2\n3,4\n"

/-- A CSV whose second data row has more fields than both the header and
the first data row: `read_csv` rejects it (`ParserError`, "Expected 2
fields in line 3, saw 3"). -/
def raggedContent : String := "a,b\n1,2\n3,4,5\n"

/-! ### General lemmas about `clean_data` -/

/-- Filtering twice with the same predicate filters once. -/
theorem filter_keep_idem {α : Type} (p : α → Bool) (l : List α) :
    (l.filter p).filter p = l.filter p := by
  induction l with
  | nil => rfl
  | cons a l ih =>
    by_cases h : p a = true
    · simp [List.filter, h, ih]
    · simp [List.filter, h, ih]

/-- C1: `clean_data` retains exactly the rows with no missing cell: the
result's rows are the complete rows of the input in order, the row count
does not grow, and every retained row is fully non-missing. -/
theorem clean_data_retains_iff_complete (T : Table) :
    (clean_data T).rows = T.rows.filter rowComplete ∧
    (clean_data T).rows.length ≤ T.rows.length ∧
    ∀ r ∈ (clean_data T).rows, ∀ c ∈ r.2, c.isSome := by
  refine ⟨rfl, List.length_filter_le rowComplete T.rows, ?_⟩
  intro r hr c hc
  have hmem := List.mem_filter.mp hr
  have hall := hmem.2
  simp only [rowComplete, List.all_eq_true] at hall
  exact hall c hc

/-- C2: the rows retained by `clean_data` form a sublist of the input's
rows, hence appear in the same relative order as in the input. -/
theorem clean_data_preserves_order (T : Table) :
    (clean_data T).rows.Sublist T.rows :=
  List.filter_sublist T.rows

/-- C3: `clean_data` is idempotent. -/
theorem clean_data_idempotent (T : Table) :
    clean_data (clean_data T) = clean_data T := by
  unfold clean_data
  simp only [Table.mk.injEq, true_and]
  exact filter_keep_idem rowComplete T.rows

/-- C4: a call to `clean_data` leaves the caller's table unchanged (the
body rebinds a local name; `dropna` allocates a new frame) and hands the
caller the cleaned table as a new value. -/
theorem clean_data_no_mutation (T : Table) :
    (clean_data_call T).2 = T ∧ (clean_data_call T).1 = clean_data T :=
  ⟨rfl, rfl⟩

/-- C5: `clean_data` is a total function, and on a zero-row table it
returns the table unchanged: same columns, zero rows. -/
theorem clean_data_total_zero_rows (T : Table) (h : T.rows = []) :
    clean_data T = T := by
  cases T with
  | mk cols rows =>
    simp only at h
    subst h
    rfl

/-- Witness for C5 at a concrete two-column, zero-row table. -/
theorem clean_data_total_zero_rows_witness :
    clean_data { cols := ["a", "b"], rows := [] } =
      { cols := ["a", "b"], rows := [] } :=
  clean_data_total_zero_rows { cols := ["a", "b"], rows := [] } rfl

/-- C6: `clean_data` keeps the column list (set and order) of its input
and its rows are exactly the retained (complete) rows. -/
theorem clean_data_same_columns (T : Table) :
    (clean_data T).cols = T.cols ∧
    (clean_data T).rows = T.rows.filter rowComplete :=
  ⟨rfl, rfl⟩

/-! ### Concrete scenarios -/

/-- The table scenario 1's file parses to. -/
def scenario1Table : Table :=
  { cols := ["a", "b"]
    rows := [(0, [some "1", some "2"]), (1, [none, some "4"]),
             (2, [some "5", some "6"])] }

/-- C7: on file contents `a,b\n1,2\n,4\n5,6\n`, `load_data` yields a 3-row
table with columns `a`, `b` whose second row (label 1) is missing in column
`a`, and `clean_data` on it yields the 2-row table of rows `(1,2)` and
`(5,6)` (labels 0 and 2). -/
theorem scenario1_load_then_clean :
    load_data scenario1Fs "hr.csv" = Except.ok scenario1Table ∧
    scenario1Table.cols = ["a", "b"] ∧
    scenario1Table.rows.length = 3 ∧
    scenario1Table.rows.get? 1 = some (1, [none, some "4"]) ∧
    clean_data scenario1Table =
      { cols := ["a", "b"]
        rows := [(0, [some "1", some "2"]), (2, [some "5", some "6"])] } :=
  ⟨rfl, rfl, rfl, rfl, rfl⟩

/-- Contents with a ragged later row parse to a `parse` error. -/
theorem parseCsv_ragged (content : String)
    (h : csvRaggedRow content = true) :
    parseCsv content = Except.error LoadError.parse := by
  unfold parseCsv
  unfold csvRaggedRow at h
  cases hlines : splitLines content with
  | nil => rfl
  | cons header dataLines =>
    rw [hlines] at h
    cases dataLines with
    | nil =>
      have h1 : false = true := h
      exact absurd h1 (by decide)
    | cons first rest =>
      have h0 : (! rest.all (fun l =>
          (splitFields l).length ≤
            max (splitFields header).length (splitFields first).length))
          = true := h
      have h2 : (rest.all (fun l =>
          (splitFields l).length ≤
            max (splitFields header).length (splitFields first).length))
          = false := by
        cases hall : rest.all (fun l =>
            (splitFields l).length ≤
              max (splitFields header).length (splitFields first).length) with
        | false => rfl
        | true =>
          rw [hall] at h0
          exact absurd h0 (by decide)
      simp only [h2]
      rfl

/-- C8: `load_data` fails with a `fileAccess` error on any unreadable path;
on plain (unquoted, CR-free) delimited contents it fails with a `parse`
error whenever a data row after the first is wider than the established
width — the field-count inconsistency the underlying parser enforces — and
on failure it returns only the error, never a table. -/
theorem load_data_errors (fs : String → Option String) (path : String) :
    (fs path = none → load_data fs path = Except.error LoadError.fileAccess) ∧
    (∀ content, fs path = some content → plainDelimited content = true →
      csvRaggedRow content = true →
      load_data fs path = Except.error LoadError.parse) := by
  constructor
  · intro h
    unfold load_data
    rw [h]
  · intro content hc _ hragged
    unfold load_data
    rw [hc]
    exact parseCsv_ragged content hragged

/-- Witness for C8: a nonexistent path fails with `fileAccess`; plain
contents whose third line is wider than the header and the first data row
fail with `parse`. -/
theorem load_data_errors_witness :
    load_data scenario1Fs "nofile.csv" = Except.error LoadError.fileAccess ∧
    load_data (fun p => if p = "bad.csv" then some raggedContent else none)
        "bad.csv" = Except.error LoadError.parse :=
  ⟨(load_data_errors scenario1Fs "nofile.csv").1 rfl,
   (load_data_errors (fun p => if p = "bad.csv" then some raggedContent
      else none) "bad.csv").2 raggedContent rfl (by decide) (by decide)⟩

/-- C9: a CSV in which every field is non-empty can still load with missing
cells: the loader reads the sentinel `NA` as the missing marker, so
`clean_data` drops a row whose file representation had no empty field. -/
theorem sentinel_na_yields_missing :
    ((splitLines sentinelContent).all
      (fun l => (splitFields l).all (fun f => f ≠ ""))) = true ∧
    parseCsv sentinelContent = Except.ok
      { cols := ["a", "b"]
        rows := [(0, [none, some "2"]), (1, [some "3", some "4"])] } ∧
    clean_data
      { cols := ["a", "b"]
        rows := [(0, [none, some "2"]), (1, [some "3", some "4"])] } =
      { cols := ["a", "b"], rows := [(1, [some "3", some "4"])] } :=
  ⟨by decide, rfl, rfl⟩

/-- C10: `clean_data` keeps each surviving row's original index label: the
retained label sequence is a subsequence of the input's labels (no
renumbering from zero), and every retained labeled row occurs, label and
all, in the input. -/
theorem clean_data_keeps_labels (T : Table) :
    ((clean_data T).rows.map Prod.fst).Sublist (T.rows.map Prod.fst) ∧
    ∀ r ∈ (clean_data T).rows, r ∈ T.rows := by
  constructor
  · exact (List.filter_sublist T.rows).map Prod.fst
  · intro r hr
    exact (List.mem_filter.mp hr).1
